import Mathlib

/-!
Verification of the ScorAI client (Next.js frontend) against its
natural-language specification.  Each definition below is a shallow
embedding of a constant or function of the repository; definitions marked
`Modelled from the spec:` embed backend behaviour that the repository does
not contain (only its client-side callers are present).
-/

/-- Wallet shape of the dashboard fallback constant
(src/unnamed/part_000, `FALLBACK.wallet`). -/
structure Wallet where
  virtual_balance_fcfa : Nat
  confirmed_balance_fcfa : Nat
  pending_settlement_fcfa : Nat
  total_saved_fcfa : Nat
  current_streak_days : Nat
deriving DecidableEq, Repr

/-- Dashboard fallback data (src/unnamed/part_000, lines 8-18); only the
wallet part is balance data. -/
structure DashboardFallback where
  wallet : Wallet
deriving DecidableEq, Repr

/-- The `FALLBACK` constant of the dashboard page. -/
def FALLBACK : DashboardFallback :=
  { wallet :=
    { virtual_balance_fcfa := 47500
      confirmed_balance_fcfa := 35000
      pending_settlement_fcfa := 12500
      total_saved_fcfa := 127000
      current_streak_days := 34 } }

/-- One row of the credit page `TIERS` table
(src/frontend/src/app/leaderboard/page.tsx, lines 142-147):
name, displayed score range, displayed loan ceiling. -/
structure TierRow where
  name : String
  range : String
  max : String
deriving DecidableEq, Repr

/-- The `TIERS` table as written in the credit page. -/
def TIERS : List TierRow :=
  [ { name := "Débutant", range := "0 – 399", max := "0 FCFA" },
    { name := "Confirmé", range := "400 – 599", max := "15 000 FCFA" },
    { name := "Expert", range := "600 – 799", max := "75 000 FCFA" },
    { name := "Élite", range := "800 – 1000", max := "200 000 FCFA" } ]

/-- Tier of the trust-score engine: label and max-loan ceiling. -/
structure Tier where
  label : String
  maxLoan : Nat
deriving DecidableEq, Repr

/-- Modelled from the spec: the Trust Score Engine is absent from the
repository; the spec defines Tier as a step function of the score with
breakpoints 0-399 Débutant (ceiling 0), 400-599 Confirmé (15000),
600-799 Expert (75000), 800-1000 Élite (200000). -/
def tierOf (score : Nat) : Tier :=
  if score ≤ 399 then { label := "Débutant", maxLoan := 0 }
  else if score ≤ 599 then { label := "Confirmé", maxLoan := 15000 }
  else if score ≤ 799 then { label := "Expert", maxLoan := 75000 }
  else { label := "Élite", maxLoan := 200000 }

/-- Interest of the credit-page loan simulator: the page computes
`Math.round(amount * 0.10)`.  Over the slider domain (multiples of 1000
up to 200000) the double-precision product differs from the exact value
amount/10 by far less than 1/2, so `Math.round` returns exactly the
rounded exact value, embedded here as round-half-up on naturals. -/
def interest (amount : Nat) : Nat := (amount + 5) / 10

/-- Total due of the credit-page loan simulator: `amount + interest`. -/
def total (amount : Nat) : Nat := amount + interest amount

/-- C1: the virtual balance of the dashboard fallback constant equals its
confirmed balance plus its pending settlement plus zero unbatched
credits. -/
theorem fallback_balance_invariant :
    FALLBACK.wallet.virtual_balance_fcfa =
      FALLBACK.wallet.confirmed_balance_fcfa +
        FALLBACK.wallet.pending_settlement_fcfa + 0 := by
  decide

/-- C2: the tier step function has exactly the breakpoints 0-399
(Débutant, ceiling 0), 400-599 (Confirmé, 15000), 600-799 (Expert,
75000), 800-1000 (Élite, 200000); in particular 399 maps to Débutant/0
and 400 to Confirmé/15000, and the client TIERS table lists exactly
these four ranges and ceilings. -/
theorem tier_step_function (s : Nat) :
    (s ≤ 399 → tierOf s = { label := "Débutant", maxLoan := 0 }) ∧
    (400 ≤ s → s ≤ 599 → tierOf s = { label := "Confirmé", maxLoan := 15000 }) ∧
    (600 ≤ s → s ≤ 799 → tierOf s = { label := "Expert", maxLoan := 75000 }) ∧
    (800 ≤ s → tierOf s = { label := "Élite", maxLoan := 200000 }) ∧
    tierOf 399 = { label := "Débutant", maxLoan := 0 } ∧
    tierOf 400 = { label := "Confirmé", maxLoan := 15000 } ∧
    TIERS = [ { name := "Débutant", range := "0 – 399", max := "0 FCFA" },
      { name := "Confirmé", range := "400 – 599", max := "15 000 FCFA" },
      { name := "Expert", range := "600 – 799", max := "75 000 FCFA" },
      { name := "Élite", range := "800 – 1000", max := "200 000 FCFA" } ] := by
  unfold tierOf
  refine ⟨fun h => by simp [h], fun h1 h2 => ?_, fun h1 h2 => ?_, fun h => ?_,
    by decide, by decide, by decide⟩
  · rw [if_neg (by omega), if_pos (by omega)]
  · rw [if_neg (by omega), if_neg (by omega), if_pos (by omega)]
  · rw [if_neg (by omega), if_neg (by omega), if_neg (by omega)]

/-- Witness for C2 at the boundary scores 399 and 400. -/
theorem tier_step_function_witness :
    tierOf 399 = { label := "Débutant", maxLoan := 0 } ∧
    tierOf 400 = { label := "Confirmé", maxLoan := 15000 } :=
  ⟨(tier_step_function 399).1 (by decide),
   (tier_step_function 400).2.1 (by decide) (by decide)⟩

/-- C4: the simulator charges a fixed 10% for the 30-day term: total due
is principal plus interest, and on every slider amount (a positive
multiple of 1000) the interest is exactly one tenth of the principal. -/
theorem interest_ten_percent (a : Nat) :
    total a = a + interest a ∧
    (a % 1000 = 0 → interest a = a / 10 ∧ 10 * interest a = a) := by
  refine ⟨rfl, fun h => ?_⟩
  obtain ⟨k, rfl⟩ : ∃ k, a = 1000 * k := ⟨a / 1000, by omega⟩
  unfold interest
  omega

/-- Witness for C4 at the slider amount 10000. -/
theorem interest_ten_percent_witness :
    total 10000 = 10000 + interest 10000 ∧
    interest 10000 = 1000 ∧ 10 * interest 10000 = 10000 := by
  have h := interest_ten_percent 10000
  exact ⟨h.1, by
    have h2 := h.2 (by decide)
    exact ⟨by rw [h2.1], h2.2⟩⟩

/-- Result shape of a loan application as consumed by the credit page
(`applyForLoan` response / the demo result object). -/
structure LoanResult where
  approved : Bool
  loan_id : Option String
  reason : Option String
  message : Option String
deriving DecidableEq, Repr

/-- Modelled from the spec: the Loan Decision Service backend is absent
from the repository; per the spec, `apply` rejects with
`AmountExceedsLimit` when the amount exceeds the current tier max loan,
rejects with `OutstandingLoanExists` when a non-REPAID loan exists, and
otherwise approves. -/
def loanApply (maxLoan : Nat) (hasOutstanding : Bool) (amount : Nat) : LoanResult :=
  if amount > maxLoan then
    { approved := false, loan_id := none,
      reason := some "AmountExceedsLimit", message := none }
  else if hasOutstanding then
    { approved := false, loan_id := none,
      reason := some "OutstandingLoanExists", message := none }
  else
    { approved := true, loan_id := some "loan", reason := none, message := none }

/-- The `handleApply` handler of the credit page
(src/frontend/src/app/leaderboard/page.tsx, lines 177-199): with a
session and a reachable backend it returns the backend response;
otherwise (no session, or the backend call throws) it falls through to
the demo branch, which always sets an approved simulated result.
`userId` is the session user id, `backendUp` is whether the
`applyForLoan` call succeeds, `now` stands for `Date.now()`. -/
def handleApply (userId : Option String) (maxLoan : Nat) (hasOutstanding : Bool)
    (backendUp : Bool) (amount : Nat) (now : Nat) : LoanResult :=
  match userId, backendUp with
  | some _, true => loanApply maxLoan hasOutstanding amount
  | _, _ =>
    { approved := true, loan_id := some ("demo_loan_" ++ toString now),
      reason := none, message := some "Prêt simulé approuvé (mode démo)" }

/-- Endpoint (HTTP method and path) of an API-client call; `fetch`
defaults to GET when no method option is passed. -/
structure Endpoint where
  method : String
  path : String
deriving DecidableEq, Repr

/-- The `getBalance` call of the API client
(src/frontend/src/lib/api.ts, lines 37-46): a request with no method
option (hence GET) to `/wallet/balance/{userId}`. -/
def getBalanceEndpoint (userId : String) : Endpoint :=
  { method := "GET", path := "/wallet/balance/" ++ userId }

/-- Field names of the `getBalance` response type as declared in the API
client. -/
def getBalanceFields : List String :=
  [ "user_id", "virtual_balance_fcfa", "confirmed_balance_fcfa",
    "pending_settlement_fcfa", "total_saved_fcfa",
    "current_streak_days", "longest_streak_days" ]

/-- One explanation row of the credit-page fallback score constant;
`impact100` records the impact in hundredths (the source literals 0.72,
0.55, 0.61, 0.45 are exact decimals). -/
structure Explanation where
  feature : String
  impact100 : Nat
  direction : String
  description : String
deriving DecidableEq, Repr

/-- The `explanations` field of `FALLBACK_SCORE`
(src/frontend/src/app/leaderboard/page.tsx, lines 132-140). -/
def FALLBACK_SCORE_explanations : List Explanation :=
  [ { feature := "savings_discipline", impact100 := 72,
      direction := "positive", description := "Discipline d’épargne" },
    { feature := "momo_activity", impact100 := 55,
      direction := "positive", description := "Activité MoMo" },
    { feature := "telecom_stability", impact100 := 61,
      direction := "positive", description := "Stabilité Télécom" },
    { feature := "behavioral_score", impact100 := 45,
      direction := "neutral", description := "Comportement" } ]

/-- Whether a list of explanations is sorted by descending impact
magnitude. -/
def sortedByDescImpact : List Explanation → Bool
  | [] => true
  | [_] => true
  | a :: b :: rest => decide (b.impact100 ≤ a.impact100) && sortedByDescImpact (b :: rest)

/-- C3 counterexample: with no session and the backend unreachable,
`handleApply` takes the demo branch and returns `approved := true` for an
amount (20000) that exceeds the fallback-tier max loan (15000), with no
`AmountExceedsLimit` reason — so a control path does return approval for
an above-limit amount. -/
theorem handleApply_demo_approves_over_limit :
    20000 > (tierOf 562).maxLoan ∧
    (handleApply none (tierOf 562).maxLoan false false 20000 0).approved = true ∧
    (handleApply none (tierOf 562).maxLoan false false 20000 0).reason ≠
      some "AmountExceedsLimit" := by
  decide

/-- C3 amended: when a session exists and the backend call succeeds, an
application whose amount exceeds the tier max loan is returned as
`approved := false` with reason `AmountExceedsLimit` (per the modelled
Loan Decision Service); with no session or an unreachable backend the
demo branch returns a simulated approval regardless of amount. -/
theorem handleApply_over_limit_rejected (uid : String) (maxLoan : Nat)
    (hasOutstanding : Bool) (amount now : Nat) :
    (amount > maxLoan →
      handleApply (some uid) maxLoan hasOutstanding true amount now =
        { approved := false, loan_id := none,
          reason := some "AmountExceedsLimit", message := none }) ∧
    (∀ userId : Option String, ∀ backendUp : Bool,
      userId = none ∨ backendUp = false →
      (handleApply userId maxLoan hasOutstanding backendUp amount now).approved = true) := by
  constructor
  · intro h
    simp only [handleApply, loanApply, if_pos h]
  · rintro userId backendUp (rfl | rfl)
    · cases backendUp <;> rfl
    · cases userId <;> rfl

/-- Witness for C3 amended: session user, reachable backend, amount
20000 over a 15000 ceiling is rejected with AmountExceedsLimit; and the
no-session demo path approves. -/
theorem handleApply_over_limit_rejected_witness :
    handleApply (some "u1") 15000 false true 20000 7 =
      { approved := false, loan_id := none,
        reason := some "AmountExceedsLimit", message := none } ∧
    (handleApply none 15000 false false 20000 7).approved = true :=
  ⟨(handleApply_over_limit_rejected "u1" 15000 false 20000 7).1 (by decide),
   (handleApply_over_limit_rejected "u1" 15000 false 20000 7).2 none false
     (Or.inl rfl)⟩

/-- C6 counterexample: the client balance query is not a POST to
`/wallet`, and its response field names are not the suffix-free names of
the claim. -/
theorem getBalance_not_post_wallet :
    (getBalanceEndpoint "u1").method ≠ "POST" ∧
    (getBalanceEndpoint "u1").path ≠ "/wallet" ∧
    getBalanceFields ≠
      [ "virtual_balance", "confirmed_balance", "pending_settlement",
        "total_saved", "current_streak_days", "longest_streak_days" ] := by
  decide

/-- C6 amended: the client balance query is a GET to
`/wallet/balance/{userId}` whose declared response fields are user_id,
virtual_balance_fcfa, confirmed_balance_fcfa, pending_settlement_fcfa,
total_saved_fcfa, current_streak_days, longest_streak_days. -/
theorem getBalance_endpoint_shape (uid : String) :
    getBalanceEndpoint uid = { method := "GET", path := "/wallet/balance/" ++ uid } ∧
    getBalanceFields =
      [ "user_id", "virtual_balance_fcfa", "confirmed_balance_fcfa",
        "pending_settlement_fcfa", "total_saved_fcfa",
        "current_streak_days", "longest_streak_days" ] :=
  ⟨rfl, rfl⟩

/-- C7: the fallback score constant of the credit page is not sorted by
descending impact magnitude: its impacts read 0.72, 0.55, 0.61, 0.45,
and the second entry (momo_activity, 0.55) precedes the larger third
entry (telecom_stability, 0.61), contradicting the display-sorting
property stated by the spec. -/
theorem fallback_explanations_not_sorted :
    sortedByDescImpact FALLBACK_SCORE_explanations = false ∧
    FALLBACK_SCORE_explanations.map (fun e => e.impact100) = [72, 55, 61, 45] ∧
    ¬ (61 ≤ 55) := by
  decide

/-- Trigger record of the triggers page
(src/frontend/src/app/triggers/page.tsx, `interface Trigger`). -/
structure Trigger where
  id : String
  team_name : String
  event_type : String
  amount_fcfa : Nat
  times_triggered : Nat
  total_saved_fcfa : Nat
  status : String
deriving DecidableEq, Repr

/-- Per-element update performed by `togglePause` on the trigger whose id
matches: flip ACTIVE to PAUSED and anything else to ACTIVE, keep other
triggers as they are. -/
def togglePauseOne (tid : String) (tr : Trigger) : Trigger :=
  if tr.id = tid then
    { tr with status := if tr.status = "ACTIVE" then "PAUSED" else "ACTIVE" }
  else tr

/-- The `togglePause` handler of the triggers page
(src/frontend/src/app/triggers/page.tsx, lines 103-112): maps the update
over the trigger list (the backend call is fire-and-forget and does not
touch the list). -/
def togglePause (triggers : List Trigger) (tid : String) : List Trigger :=
  triggers.map (togglePauseOne tid)

/-- The `DEMO_TRIGGERS` constant of the triggers page. -/
def DEMO_TRIGGERS : List Trigger :=
  [ { id := "demo1", team_name := "Arsenal", event_type := "WIN",
      amount_fcfa := 1000, times_triggered := 12, total_saved_fcfa := 12000,
      status := "ACTIVE" },
    { id := "demo2", team_name := "Arsenal", event_type := "GOAL",
      amount_fcfa := 500, times_triggered := 28, total_saved_fcfa := 14000,
      status := "ACTIVE" } ]

/-- A trigger in the DELETED lifecycle state of the spec. -/
def deletedTrigger : Trigger :=
  { id := "demo1", team_name := "Arsenal", event_type := "WIN",
    amount_fcfa := 1000, times_triggered := 12, total_saved_fcfa := 12000,
    status := "DELETED" }

/-- Double toggle returns a trigger with ACTIVE-or-PAUSED status to
itself. -/
theorem togglePauseOne_involutive (tid : String) (tr : Trigger)
    (h : tr.id = tid → tr.status = "ACTIVE" ∨ tr.status = "PAUSED") :
    togglePauseOne tid (togglePauseOne tid tr) = tr := by
  obtain ⟨i, tn, et, af, ti, tsv, st⟩ := tr
  by_cases hid : i = tid
  · subst hid
    rcases h rfl with h | h <;> subst h <;> simp [togglePauseOne]
  · simp [togglePauseOne, hid]

/-- C8 counterexample: on a trigger whose status is DELETED (a lifecycle
state of the spec), applying `togglePause` twice yields PAUSED, not the
original list — `togglePause` is not an involution on every trigger
list. -/
theorem togglePause_not_involution :
    togglePause (togglePause [deletedTrigger] "demo1") "demo1" ≠ [deletedTrigger] := by
  decide

/-- C8 amended: `togglePause` applied twice restores the list whenever
every trigger with the toggled id has status ACTIVE or PAUSED; a single
application leaves triggers with a different id untouched, and on a
matching trigger changes only the status field, ACTIVE becoming PAUSED
and any other status becoming ACTIVE. -/
theorem togglePause_involution (ts : List Trigger) (tid : String) :
    ((∀ tr ∈ ts, tr.id = tid → tr.status = "ACTIVE" ∨ tr.status = "PAUSED") →
      togglePause (togglePause ts tid) tid = ts) ∧
    (∀ tr : Trigger, tr.id ≠ tid → togglePauseOne tid tr = tr) ∧
    (∀ tr : Trigger, tr.id = tid →
      (togglePauseOne tid tr).id = tr.id ∧
      (togglePauseOne tid tr).team_name = tr.team_name ∧
      (togglePauseOne tid tr).event_type = tr.event_type ∧
      (togglePauseOne tid tr).amount_fcfa = tr.amount_fcfa ∧
      (togglePauseOne tid tr).times_triggered = tr.times_triggered ∧
      (togglePauseOne tid tr).total_saved_fcfa = tr.total_saved_fcfa ∧
      (togglePauseOne tid tr).status =
        (if tr.status = "ACTIVE" then "PAUSED" else "ACTIVE")) := by
  refine ⟨?_, ?_, ?_⟩
  · intro h
    induction ts with
    | nil => rfl
    | cons a l ih =>
      have ha := h a (List.mem_cons_self a l)
      have hl := fun tr hm => h tr (List.mem_cons_of_mem a hm)
      show togglePauseOne tid (togglePauseOne tid a) ::
        togglePause (togglePause l tid) tid = a :: l
      rw [togglePauseOne_involutive tid a ha, ih hl]
  · intro tr hid
    simp [togglePauseOne, hid]
  · intro tr hid
    simp [togglePauseOne, hid]

/-- Witness for C8 amended: double toggle on the DEMO_TRIGGERS list (all
ACTIVE) restores it, and a non-matching trigger is untouched. -/
theorem togglePause_involution_witness :
    togglePause (togglePause DEMO_TRIGGERS "demo1") "demo1" = DEMO_TRIGGERS ∧
    togglePauseOne "demo1"
      { id := "demo2", team_name := "Arsenal", event_type := "GOAL",
        amount_fcfa := 500, times_triggered := 28, total_saved_fcfa := 14000,
        status := "ACTIVE" } =
      { id := "demo2", team_name := "Arsenal", event_type := "GOAL",
        amount_fcfa := 500, times_triggered := 28, total_saved_fcfa := 14000,
        status := "ACTIVE" } :=
  ⟨(togglePause_involution DEMO_TRIGGERS "demo1").1 (by decide),
   (togglePause_involution DEMO_TRIGGERS "demo1").2.1 _ (by decide)⟩

/-- Relevant fields of a parsed JSON error body seen by the shared
`request` helper: an optional `detail` and an optional `message`
string. -/
structure ErrBody where
  detail : Option String
  message : Option String
deriving DecidableEq, Repr

/-- JavaScript truthiness disjunction on optional strings: an absent
field and the empty string are falsy. -/
def jsOr (a b : Option String) : Option String :=
  match a with
  | some s => if s = "" then b else some s
  | none => b

/-- Error message built by the `request` helper on a non-ok response
(src/frontend/src/lib/api.ts, lines 14-16): the parsed body (or the
fallback object with message "Erreur serveur" when the body is not valid
JSON), then the chain detail, message, "Erreur " plus the status
code. -/
def requestErrMessage (status : Nat) (body : Option ErrBody) : String :=
  let err := body.getD { detail := none, message := some "Erreur serveur" }
  (jsOr err.detail (jsOr err.message
    (some ("Erreur " ++ toString status)))).getD ("Erreur " ++ toString status)

/-- The shared `request` helper of the API client
(src/frontend/src/lib/api.ts, lines 9-19), over a response abstracted to
its ok flag, status code, and parsed body (`none` when the body is not
valid JSON): on ok it returns the parse of the body (`res.json()`
rejects with a SyntaxError on an invalid body); on non-ok it throws an
Error whose message is `requestErrMessage`. -/
def request (resOk : Bool) (status : Nat) (body : Option ErrBody) :
    Except String ErrBody :=
  if resOk then
    match body with
    | some b => Except.ok b
    | none => Except.error "SyntaxError"
  else
    Except.error (requestErrMessage status body)

/-- C9 counterexample: on a non-ok response whose body has a `detail`
field that is present but empty, the helper throws with the `message`
field, not the present `detail` field — "if present" must be read as
"present and non-empty". -/
theorem request_empty_detail_uses_message :
    request false 500 (some { detail := some "", message := some "boom" }) =
      Except.error "boom" ∧ ("boom" : String) ≠ "" ∧ ("" : String) ≠ "boom" := by
  refine ⟨rfl, by decide, by decide⟩

/-- C9 amended: `request` returns the parsed body on an ok response, and
on a non-ok response throws an Error whose message is the body's
`detail` field when present and non-empty, else its `message` field when
present and non-empty, else "Erreur " followed by the status code, with
"Erreur serveur" used when the error body is not valid JSON. -/
theorem request_error_message_rules (status : Nat) (d m : String)
    (om : Option String) (b : ErrBody) :
    (request true status (some b) = Except.ok b) ∧
    (d ≠ "" → request false status (some { detail := some d, message := om }) =
      Except.error d) ∧
    (m ≠ "" → request false status (some { detail := none, message := some m }) =
      Except.error m) ∧
    (m ≠ "" → request false status (some { detail := some "", message := some m }) =
      Except.error m) ∧
    (request false status (some { detail := none, message := none }) =
      Except.error ("Erreur " ++ toString status)) ∧
    (request false status (some { detail := some "", message := some "" }) =
      Except.error ("Erreur " ++ toString status)) ∧
    (request false status none = Except.error "Erreur serveur") := by
  refine ⟨rfl, fun hd => ?_, fun hm => ?_, fun hm => ?_, rfl, rfl, rfl⟩
  · simp [request, requestErrMessage, jsOr, hd]
  · simp [request, requestErrMessage, jsOr, hm]
  · simp [request, requestErrMessage, jsOr, hm]

/-- Witness for C9 amended at status 404 with concrete bodies. -/
theorem request_error_message_rules_witness :
    request true 404 (some { detail := none, message := none }) =
      Except.ok { detail := none, message := none } ∧
    request false 404 (some { detail := some "gone", message := some "x" }) =
      Except.error "gone" ∧
    request false 404 (some { detail := none, message := some "x" }) =
      Except.error "x" ∧
    request false 404 none = Except.error "Erreur serveur" :=
  ⟨(request_error_message_rules 404 "gone" "x" (some "x")
      { detail := none, message := none }).1,
   (request_error_message_rules 404 "gone" "x" (some "x")
      { detail := none, message := none }).2.1 (by decide),
   (request_error_message_rules 404 "gone" "x" (some "x")
      { detail := none, message := none }).2.2.1 (by decide),
   (request_error_message_rules 404 "gone" "x" (some "x")
      { detail := none, message := none }).2.2.2.2.2.2⟩

/-- Team option chosen during onboarding. -/
structure Team where
  id : Nat
  name : String
deriving DecidableEq, Repr

/-- Successful signup response consumed by `handleComplete`. -/
structure SignupResp where
  user_id : String
  referral_code : String
deriving DecidableEq, Repr

/-- Session stored by `setSession` (src/frontend/src/lib/session). -/
structure Session where
  userId : Option String
  displayName : Option String
  referralCode : Option String
deriving DecidableEq, Repr

/-- Outcome of `handleComplete`: either no side effect at all, or a
stored session together with the redirect target. -/
inductive CompleteResult where
  | noop : CompleteResult
  | done : Session → String → CompleteResult
deriving DecidableEq, Repr

/-- The `handleComplete` handler of the onboarding page
(src/frontend/src/lib/api.ts as packed, lines 233-267): with no team
selected it returns immediately with no side effect; otherwise it seeds
a demo user id from `Date.now()` and a demo referral code from the name
and a random number, overwrites both when the signup call succeeds
(`signup` is its outcome, `none` when it throws), always stores a
session and redirects to /dashboard.  The trigger-creation call is
fire-and-forget (`.catch`) and affects neither the session nor the
redirect. -/
def handleComplete (selectedTeam : Option Team) (name : String)
    (signup : Option SignupResp) (now rand : Nat) : CompleteResult :=
  match selectedTeam with
  | none => .noop
  | some _ =>
    let userId := match signup with
      | some s => s.user_id
      | none => "demo_" ++ toString now
    let referralCode := match signup with
      | some s => s.referral_code
      | none => "SCOR" ++ (name.take 2).toUpper ++ toString rand
    .done { userId := some userId, displayName := some name,
            referralCode := some referralCode } "/dashboard"

/-- C10: with a team selected, `handleComplete` always stores a session
whose userId is non-null and redirects to /dashboard, whether or not the
signup call succeeds; with no team selected it returns with no side
effect. -/
theorem handleComplete_always_session (team : Team) (name : String)
    (signup : Option SignupResp) (now rand : Nat) :
    (∃ s : Session, handleComplete (some team) name signup now rand =
      .done s "/dashboard" ∧ s.userId.isSome = true) ∧
    handleComplete none name signup now rand = .noop := by
  refine ⟨?_, rfl⟩
  cases signup with
  | none => exact ⟨_, rfl, rfl⟩
  | some s => exact ⟨_, rfl, rfl⟩

/-- Kind of a ledger entry per the spec data model. -/
inductive EntryKind where
  | VIRTUAL_CREDIT : EntryKind
  | SETTLEMENT_DEBIT : EntryKind
  | REVERSAL : EntryKind
deriving DecidableEq, Repr

/-- Modelled from the spec: immutable append-only ledger entry (user id,
amount, kind) of the Virtual Ledger, which is absent from the
repository. -/
structure LedgerEntry where
  userId : String
  amount : Nat
  kind : EntryKind
deriving DecidableEq, Repr

/-- Modelled from the spec: a savings rule (trigger) as read by the Event
Ingestor — owner, fixed amount per occurrence, active flag. -/
structure Rule where
  id : String
  userId : String
  amount : Nat
  active : Bool
deriving DecidableEq, Repr

/-- Modelled from the spec: a trigger-event candidate, identified by its
idempotency key (rule id, external sporting-event id). -/
structure TriggerEvent where
  ruleId : String
  extEventId : String
deriving DecidableEq, Repr

/-- Outcome of `ingest` per the spec contract
`ingest(event) -> accepted | duplicate | rule-not-found | rule-not-active`. -/
inductive IngestOutcome where
  | accepted : IngestOutcome
  | duplicate : IngestOutcome
  | ruleNotFound : IngestOutcome
  | ruleNotActive : IngestOutcome
deriving DecidableEq, Repr

/-- Modelled from the spec: ledger-side state of the Event Ingestor —
the set of idempotency keys already ingested (the uniqueness
constraint) and the append-only entry log. -/
structure LedgerState where
  seen : List (String × String)
  entries : List LedgerEntry
deriving DecidableEq, Repr

/-- Rule lookup by id. -/
def findRule (rules : List Rule) (rid : String) : Option Rule :=
  rules.find? (fun r => r.id == rid)

/-- Modelled from the spec: the Event Ingestor, absent from the
repository.  A key already seen is a no-op `duplicate`; an unknown or
inactive rule is rejected with no side effect; otherwise the key is
recorded and one VIRTUAL_CREDIT entry for the rule's fixed amount is
appended. -/
def ingest (rules : List Rule) (st : LedgerState) (ev : TriggerEvent) :
    LedgerState × IngestOutcome :=
  if (ev.ruleId, ev.extEventId) ∈ st.seen then (st, .duplicate)
  else
    match findRule rules ev.ruleId with
    | none => (st, .ruleNotFound)
    | some r =>
      if r.active then
        ({ seen := (ev.ruleId, ev.extEventId) :: st.seen,
           entries := { userId := r.userId, amount := r.amount,
                        kind := .VIRTUAL_CREDIT } :: st.entries },
         .accepted)
      else (st, .ruleNotActive)

/-- Modelled from the spec: the virtual balance of a user as the sum of
that user's VIRTUAL_CREDIT entries. -/
def virtualBalance (st : LedgerState) (u : String) : Nat :=
  (st.entries.map (fun e =>
    if e.userId = u ∧ e.kind = EntryKind.VIRTUAL_CREDIT then e.amount else 0)).sum

/-- C5: ingestion is idempotent on the key (rule id, external event id):
for a fresh key matching an active rule the first delivery is accepted
and appends exactly one ledger entry, raising the owner's virtual
balance by exactly the rule's amount, and a second delivery of the same
event is a duplicate no-op leaving the state unchanged. -/
theorem ingest_idempotent (rules : List Rule) (st : LedgerState)
    (ev : TriggerEvent) (r : Rule)
    (hnew : (ev.ruleId, ev.extEventId) ∉ st.seen)
    (hrule : findRule rules ev.ruleId = some r)
    (hactive : r.active = true) :
    (ingest rules st ev).2 = .accepted ∧
    ingest rules (ingest rules st ev).1 ev = ((ingest rules st ev).1, .duplicate) ∧
    (ingest rules st ev).1.entries.length = st.entries.length + 1 ∧
    virtualBalance (ingest rules st ev).1 r.userId =
      virtualBalance st r.userId + r.amount := by
  have hstep : ingest rules st ev =
      ({ seen := (ev.ruleId, ev.extEventId) :: st.seen,
         entries := { userId := r.userId, amount := r.amount,
                      kind := .VIRTUAL_CREDIT } :: st.entries },
       .accepted) := by
    unfold ingest
    rw [if_neg hnew, hrule]
    simp [hactive]
  rw [hstep]
  refine ⟨rfl, ?_, rfl, ?_⟩
  · unfold ingest
    rw [if_pos (List.mem_cons_self _ _)]
  · unfold virtualBalance
    simp [Nat.add_comm]

/-- Witness for C5: one rule, empty ledger, one event; the first
ingestion is accepted and credits 1000, the second is a duplicate
no-op. -/
theorem ingest_idempotent_witness :
    (ingest [{ id := "r1", userId := "u1", amount := 1000, active := true }]
        { seen := [], entries := [] } { ruleId := "r1", extEventId := "ev9" }).2 =
      .accepted ∧
    ingest [{ id := "r1", userId := "u1", amount := 1000, active := true }]
        (ingest [{ id := "r1", userId := "u1", amount := 1000, active := true }]
          { seen := [], entries := [] } { ruleId := "r1", extEventId := "ev9" }).1
        { ruleId := "r1", extEventId := "ev9" } =
      ((ingest [{ id := "r1", userId := "u1", amount := 1000, active := true }]
          { seen := [], entries := [] } { ruleId := "r1", extEventId := "ev9" }).1,
       .duplicate) ∧
    (ingest [{ id := "r1", userId := "u1", amount := 1000, active := true }]
        { seen := [], entries := [] } { ruleId := "r1", extEventId := "ev9" }).1.entries.length =
      (({ seen := [], entries := [] } : LedgerState)).entries.length + 1 ∧
    virtualBalance
        (ingest [{ id := "r1", userId := "u1", amount := 1000, active := true }]
          { seen := [], entries := [] } { ruleId := "r1", extEventId := "ev9" }).1 "u1" =
      virtualBalance { seen := [], entries := [] } "u1" + 1000 :=
  ingest_idempotent
    [{ id := "r1", userId := "u1", amount := 1000, active := true }]
    { seen := [], entries := [] } { ruleId := "r1", extEventId := "ev9" }
    { id := "r1", userId := "u1", amount := 1000, active := true }
    (by decide) (by decide) rfl

/-- Witness for C6 amended at the concrete user id "u1". -/
theorem getBalance_endpoint_shape_witness :
    getBalanceEndpoint "u1" =
      { method := "GET", path := "/wallet/balance/" ++ "u1" } ∧
    getBalanceFields =
      [ "user_id", "virtual_balance_fcfa", "confirmed_balance_fcfa",
        "pending_settlement_fcfa", "total_saved_fcfa",
        "current_streak_days", "longest_streak_days" ] :=
  getBalance_endpoint_shape "u1"

/-- Witness for C10 at a concrete team, name, and failed signup. -/
theorem handleComplete_always_session_witness :
    (∃ s : Session,
      handleComplete (some { id := 42, name := "Arsenal" }) "Jean" none 5 7 =
        .done s "/dashboard" ∧ s.userId.isSome = true) ∧
    handleComplete none "Jean" none 5 7 = .noop :=
  handleComplete_always_session { id := 42, name := "Arsenal" } "Jean" none 5 7
